import Mathlib

/-!
Verification of the wardrobe backend (`backend-main.py`): a shallow
embedding of the outfit selector (`generate_outfit`), the mannequin
compositor (`create_mannequin_composite`), and the credential-missing
branches of the HTTP handlers, together with theorems settling the
spec's claims about them.

String primitives (substring test, lower-casing, stripping, comma
splitting) are implemented by structural recursion over `String.data`
so that all definitions evaluate inside the kernel.
-/

set_option maxRecDepth 8192

namespace Wardrobe

/-- `pat` is a prefix of `s`, on character lists. -/
def charsHasPrefix : List Char → List Char → Bool
  | _, [] => true
  | [], _ :: _ => false
  | c :: cs, p :: ps => c == p && charsHasPrefix cs ps

/-- `pat` occurs as a contiguous substring of `s`, on character lists. -/
def charsContains : List Char → List Char → Bool
  | [], pat => pat.isEmpty
  | c :: cs, pat => charsHasPrefix (c :: cs) pat || charsContains cs pat

/-- Python's substring test `pat in s`. -/
def strContains (s pat : String) : Bool :=
  charsContains s.data pat.data

/-- Python's `s.startswith(pat)`. -/
def strStartsWith (s pat : String) : Bool :=
  charsHasPrefix s.data pat.data

/-- Python's `s.lower()` (ASCII model, as all category keywords are ASCII). -/
def pyLower (s : String) : String :=
  ⟨s.data.map Char.toLower⟩

/-- Python's `s.strip()`: remove leading and trailing whitespace. -/
def pyStrip (s : String) : String :=
  ⟨((s.data.dropWhile Char.isWhitespace).reverse.dropWhile Char.isWhitespace).reverse⟩

/-- Drop characters up to and including the first comma; `none` when the
string has no comma. -/
def dropThroughComma : List Char → Option (List Char)
  | [] => none
  | c :: cs => if c == ',' then some cs else dropThroughComma cs

/-- Take characters up to (excluding) the next comma. -/
def takeToComma : List Char → List Char
  | [] => []
  | c :: cs => if c == ',' then [] else c :: takeToComma cs

/-- Python's `s.split(',')[1]`: the field between the first and second
comma; `none` models the `IndexError` when `s` contains no comma. -/
def secondCommaField (s : String) : Option String :=
  (dropThroughComma s.data).map (fun cs => ⟨takeToComma cs⟩)

/-- A wardrobe item as sent in the `generate-outfit` request body: a JSON
object whose `category` field may be absent (`item.get('category', '')`). -/
structure ClothingItem where
  category : Option String
deriving Repr, DecidableEq

/-- Top-family keywords from `generate_outfit` line 143. -/
def topKeywords : List String :=
  ["shirt", "top", "blouse", "t-shirt", "sweater", "jacket", "coat", "outerwear"]

/-- Bottom-family keywords from `generate_outfit` line 145. -/
def bottomKeywords : List String :=
  ["pants", "bottom", "jeans", "trousers", "skirt"]

/-- Shoe-family keywords from `generate_outfit` line 147. -/
def shoeKeywords : List String :=
  ["shoe", "sneaker", "boot", "sandal"]

/-- `any(x in cat for x in kws)`. -/
def matchesAny (kws : List String) (cat : String) : Bool :=
  kws.any (fun x => strContains cat x)

/-- The four buckets of the selector's partition. -/
inductive Bucket where
  | top
  | bottom
  | shoes
  | other
deriving Repr, DecidableEq

/-- The selector's keyword cascade (lines 142-150) on an already
lowercased category string: first matching family wins, `other` otherwise. -/
def bucketOfCat (cat : String) : Bucket :=
  if matchesAny topKeywords cat then .top
  else if matchesAny bottomKeywords cat then .bottom
  else if matchesAny shoeKeywords cat then .shoes
  else .other

/-- Bucket of a wardrobe item: `cat = item.get('category', '').lower()`. -/
def bucketOf (item : ClothingItem) : Bucket :=
  bucketOfCat (pyLower (item.category.getD ""))

/-- The list of wardrobe indices falling into bucket `b`, in enumeration
order — the single `for i, item in enumerate(wardrobe)` loop of lines
141-150 builds exactly these four lists. -/
def bucketIdx (b : Bucket) (w : List ClothingItem) : List Nat :=
  (w.enum.filter (fun p => bucketOf p.2 == b)).map Prod.fst

/-- The JSON body returned by `POST /generate-outfit`: the outfit is the
list of `item_index` values in order. -/
structure OutfitResponse where
  outfit : List Nat
  explanation : String
deriving Repr, DecidableEq

/-- `generate_outfit` (lines 121-175), non-exception path. The two
`while` loops become list operations: `while len(outfit) < 3 and others`
appends the first `3 - len` elements of `others`, and `while len(outfit) < 2`
appends copies of index `0` up to length 2. -/
def generate_outfit (wardrobe : List ClothingItem) (occasion weather : String) :
    OutfitResponse :=
  if wardrobe.length < 2 then
    { outfit := [0], explanation := "Add more items!" }
  else
    let tops := bucketIdx .top wardrobe
    let bottoms := bucketIdx .bottom wardrobe
    let shoes := bucketIdx .shoes wardrobe
    let others := bucketIdx .other wardrobe
    let o1 := tops.take 1 ++ bottoms.take 1 ++ shoes.take 1
    let o2 := o1 ++ others.take (3 - o1.length)
    let o3 := o2 ++ List.replicate (2 - o2.length) 0
    { outfit := o3,
      explanation :=
        "Complete outfit for " ++ occasion ++ " in " ++ weather ++ " weather" }

/-- The `except` fallback of `generate_outfit` (lines 177-182): a fixed
response with indices 0 and 1, returned when the handler body raises. -/
def generate_outfit_error_fallback : OutfitResponse :=
  { outfit := [0, 1], explanation := "Outfit suggestion" }

/-- Outerwear-family keywords: the categories the compositor anchors at
the outerwear height (lines 322-324) and sizes as outerwear (lines 341-343). -/
def outerwearKeywords : List String :=
  ["jacket", "coat", "outerwear"]

/-- A decoded raster image; only its pixel dimensions matter to the
compositor's layout logic. Decoding itself (base64 + PIL `Image.open` +
`convert('RGBA')`) is an external collaborator, modelled as an opaque
`decode : String → Option Img` parameter: `none` is any decoding failure. -/
structure Img where
  width : Nat
  height : Nat
deriving Repr, DecidableEq

/-- Models PIL `Image.thumbnail(max_size)`: shrink (never enlarge) so that
neither dimension exceeds the bound, preserving aspect ratio
(external-library collaborator; PIL's exact rounding is not modelled). -/
def thumbnail (img : Img) (m : Nat × Nat) : Img :=
  if img.width ≤ m.1 && img.height ≤ m.2 then img
  else
    ⟨min m.1 (m.2 * img.width / img.height),
     min m.2 (m.1 * img.height / img.width)⟩

/-- One pasted layer: the resized item image and the top-left paste offset
`(pos[0] - img.width//2, pos[1] - img.height//2)` (lines 370-372). -/
structure Paste where
  img : Img
  pos : Int × Int
deriving Repr, DecidableEq

/-- The composite canvas: fixed dimensions, RGBA background fill, and the
layers pasted onto it in order. -/
structure Canvas where
  width : Nat
  height : Nat
  background : Nat × Nat × Nat × Nat
  layers : List Paste
deriving Repr, DecidableEq

/-- An item of the `generate-mannequin` request: a JSON object whose
`image` (data URI) and `category` fields may be absent
(`item.get('image', '')`, `item.get('category', 'shirt')`). -/
structure MannequinItem where
  image : Option String
  category : Option String
deriving Repr, DecidableEq

/-- The `positions` anchor table of `create_mannequin_composite`
(lines 316-338), with `width, height = 1024, 1536`: category keyword to
`(anchor_x, anchor_y)`, e.g. `int(1536 * 0.30) = 460`. -/
def positions : List (String × (Nat × Nat)) :=
  [("shirt", (512, 460)), ("top", (512, 460)), ("t-shirt", (512, 460)),
   ("blouse", (512, 460)), ("sweater", (512, 460)),
   ("jacket", (512, 430)), ("coat", (512, 430)), ("outerwear", (512, 430)),
   ("pants", (512, 844)), ("bottom", (512, 844)), ("jeans", (512, 844)),
   ("trousers", (512, 844)), ("skirt", (512, 844)),
   ("shoes", (512, 1259)), ("shoe", (512, 1259)), ("sneakers", (512, 1259)),
   ("boots", (512, 1259)),
   ("dress", (512, 691))]

/-- The `size_limits` table of `create_mannequin_composite` (lines 340-350). -/
def size_limits : List (String × (Nat × Nat)) :=
  [("jacket", (550, 550)), ("coat", (550, 550)), ("outerwear", (550, 550)),
   ("shirt", (500, 500)), ("top", (500, 500)),
   ("pants", (450, 650)), ("bottom", (450, 650)),
   ("shoes", (320, 280)),
   ("dress", (500, 700))]

/-- The compositor's normalized category: `item.get('category', 'shirt').lower().strip()`. -/
def compositorCategory (item : MannequinItem) : String :=
  pyStrip (pyLower (item.category.getD "shirt"))

/-- The compositor's anchor lookup for a raw category string:
`positions.get(category, (width//2, height//2))` after lower/strip. -/
def compositorAnchor (raw : String) : Nat × Nat :=
  (positions.lookup (pyStrip (pyLower raw))).getD (512, 768)

/-- The compositor's size-limit lookup for a raw category string:
`size_limits.get(category, (400, 400))` after lower/strip. -/
def compositorSize (raw : String) : Nat × Nat :=
  (size_limits.lookup (pyStrip (pyLower raw))).getD (400, 400)

/-- The body of the per-item `try` block (lines 352-373): `none` models
every `continue` — empty image data, a data URI with no comma
(`split(',')[1]` raises `IndexError`), or a decoding failure — and
`some` is the layer pasted onto the canvas. -/
def processItem (decode : String → Option Img) (item : MannequinItem) :
    Option Paste :=
  let image_data := item.image.getD ""
  if image_data == "" then none
  else
    let stripped :=
      if strStartsWith image_data "data:image" then secondCommaField image_data
      else some image_data
    match stripped with
    | none => none
    | some payload =>
      match decode payload with
      | none => none
      | some img0 =>
        let category := compositorCategory item
        let max_size := (size_limits.lookup category).getD (400, 400)
        let img := thumbnail img0 max_size
        let pos := (positions.lookup category).getD (512, 768)
        some ⟨img, ((pos.1 : Int) - (img.width : Int) / 2,
                    (pos.2 : Int) - (img.height : Int) / 2)⟩

/-- `create_mannequin_composite` (lines 311-379): start from the blank
1024×1536 canvas with opaque white background `(255, 255, 255, 255)` and
paste each successfully processed item in input order; failed items are
skipped by the per-item `except: continue`. -/
def create_mannequin_composite (decode : String → Option Img)
    (items : List MannequinItem) : Canvas :=
  items.foldl
    (fun composite item =>
      match processItem decode item with
      | none => composite
      | some p => { composite with layers := composite.layers ++ [p] })
    ⟨1024, 1536, (255, 255, 255, 255), []⟩

/-- An HTTP response as far as the error-handling claims need it:
status code, the body's `success`-style flag (`none` when the body has no
such flag), and a body tag (error text, method, or default-content marker). -/
structure HttpResponse where
  status : Nat
  success : Option Bool
  bodyTag : String
deriving Repr, DecidableEq

/-- Outcome of the remove.bg upstream call, an external collaborator:
HTTP 200 with image bytes, a non-200 status with error text, or a raised
exception (timeout, transport error). -/
inductive BgUpstream where
  | ok (imageB64 : String)
  | httpError (code : Nat) (text : String)
  | exn (msg : String)

/-- `remove_background` (lines 184-225), abstracted to status and
`success` flag. With no `REMOVEBG_API_KEY` it returns `status_code=400`,
`{"success": False, "error": "No API key"}` (lines 190-194); otherwise the
upstream outcome decides: 200 on success, the upstream's status on a
non-200, and 500 from the `except` branch. -/
def remove_background (hasKey : Bool) (upstream : BgUpstream) : HttpResponse :=
  if !hasKey then ⟨400, some false, "No API key"⟩
  else
    match upstream with
    | .ok _ => ⟨200, some true, "removebg"⟩
    | .httpError c t => ⟨c, some false, t⟩
    | .exn m => ⟨500, some false, m⟩

/-- `analyze_clothing` (lines 53-119), abstracted. With no Anthropic
client configured it returns the static default attribute record with
HTTP 200 (lines 57-64) before any fallible work; otherwise the upstream
outcome decides, and any exception also yields the 200 default (lines
111-119). `upstreamOk = none` models a raised exception or unusable
reply, `some tag` a parsed analysis. -/
def analyze_clothing (hasClient : Bool) (upstreamOk : Option String) :
    HttpResponse :=
  if !hasClient then ⟨200, none, "default-content"⟩
  else
    match upstreamOk with
    | some tag => ⟨200, none, tag⟩
    | none => ⟨200, none, "default-content"⟩

/-- `generate_mannequin` (lines 227-309), abstracted to status, success
flag and `method`. An empty item list raises `HTTPException(400)` inside
the `try` (line 235), which the outer `except Exception` catches and
re-raises as a 500 (lines 305-309). With Replicate configured, a
successful enhancement returns `replicate-enhanced`; a Replicate failure
falls through to the basic composite; without the credential the basic
composite is returned directly with HTTP 200 (lines 297-303). -/
def generate_mannequin (hasReplicate : Bool) (replicateOk : Bool)
    (items : List MannequinItem) : HttpResponse :=
  if items.isEmpty then ⟨500, none, "No items"⟩
  else if hasReplicate && replicateOk then ⟨200, some true, "replicate-enhanced"⟩
  else ⟨200, some true, "basic-composite"⟩

/-! ### Helper lemmas about the bucket partition and the selector -/

/-- Bucket membership characterized by lookup: index `i` lands in bucket
`b` iff the wardrobe has an item at `i` whose category bucket is `b`. -/
theorem mem_bucketIdx {b : Bucket} {w : List ClothingItem} {i : Nat} :
    i ∈ bucketIdx b w ↔ ∃ item, w[i]? = some item ∧ bucketOf item = b := by
  simp only [bucketIdx, List.mem_map, List.mem_filter, beq_iff_eq, Prod.exists]
  constructor
  · rintro ⟨j, item, ⟨hmem, hb⟩, rfl⟩
    exact ⟨item, List.mk_mem_enum_iff_getElem?.1 hmem, hb⟩
  · rintro ⟨item, hget, hb⟩
    exact ⟨i, item, ⟨List.mk_mem_enum_iff_getElem?.2 hget, hb⟩, rfl⟩

/-- Every bucket index is a valid wardrobe index. -/
theorem lt_length_of_mem_bucketIdx {b : Bucket} {w : List ClothingItem} {i : Nat}
    (h : i ∈ bucketIdx b w) : i < w.length := by
  obtain ⟨item, hget, -⟩ := mem_bucketIdx.1 h
  have := List.getElem?_eq_some.1 hget
  exact this.1

/-- The buckets are disjoint: an index belongs to at most one bucket. -/
theorem bucket_eq_of_mem {b b' : Bucket} {w : List ClothingItem} {i : Nat}
    (h : i ∈ bucketIdx b w) (h' : i ∈ bucketIdx b' w) : b = b' := by
  obtain ⟨item, hget, hb⟩ := mem_bucketIdx.1 h
  obtain ⟨item', hget', hb'⟩ := mem_bucketIdx.1 h'
  rw [hget] at hget'
  injection hget' with same
  rw [← hb, ← hb', same]

/-- A wardrobe with a top-family and a bottom-family item has at least
two items. -/
theorem two_le_length_of_buckets {w : List ClothingItem}
    (ht : bucketIdx .top w ≠ []) (hb : bucketIdx .bottom w ≠ []) :
    2 ≤ w.length := by
  obtain ⟨i, ti, hti⟩ := List.exists_cons_of_ne_nil ht
  obtain ⟨j, tj, htj⟩ := List.exists_cons_of_ne_nil hb
  have hi : i ∈ bucketIdx .top w := by rw [hti]; exact List.mem_cons_self _ _
  have hj : j ∈ bucketIdx .bottom w := by rw [htj]; exact List.mem_cons_self _ _
  have hlti := lt_length_of_mem_bucketIdx hi
  have hltj := lt_length_of_mem_bucketIdx hj
  have hne : i ≠ j := by
    intro hij
    subst hij
    exact absurd (bucket_eq_of_mem hi hj) (by decide)
  omega

/-- Every index of the selected outfit (wardrobe of length at least 2)
comes from one of the four buckets or is the literal padding index 0. -/
theorem outfit_mem_cases {w : List ClothingItem} {o we : String} {i : Nat}
    (hlen : ¬ w.length < 2) (hi : i ∈ (generate_outfit w o we).outfit) :
    (∃ b, i ∈ bucketIdx b w) ∨ i = 0 := by
  simp only [generate_outfit, if_neg hlen, List.mem_append] at hi
  rcases hi with ((((h | h) | h) | h) | h)
  · exact .inl ⟨.top, List.mem_of_mem_take h⟩
  · exact .inl ⟨.bottom, List.mem_of_mem_take h⟩
  · exact .inl ⟨.shoes, List.mem_of_mem_take h⟩
  · exact .inl ⟨.other, List.mem_of_mem_take h⟩
  · exact .inr (List.eq_of_mem_replicate h)

/-- On any non-empty wardrobe every returned index is in bounds. -/
theorem outfit_mem_lt {w : List ClothingItem} {o we : String}
    (hne : w ≠ []) : ∀ i ∈ (generate_outfit w o we).outfit, i < w.length := by
  intro i hi
  by_cases hlen : w.length < 2
  · simp only [generate_outfit, if_pos hlen, List.mem_singleton] at hi
    subst hi
    exact List.length_pos.2 hne
  · rcases outfit_mem_cases hlen hi with ⟨b, hb⟩ | rfl
    · exact lt_length_of_mem_bucketIdx hb
    · have := List.length_pos.2 hne
      omega

/-- The selector never returns an empty outfit, on any wardrobe. -/
theorem outfit_ne_nil (w : List ClothingItem) (o we : String) :
    (generate_outfit w o we).outfit ≠ [] := by
  by_cases hlen : w.length < 2
  · simp [generate_outfit, hlen]
  · apply List.length_pos.1
    simp only [generate_outfit, if_neg hlen, List.length_append,
      List.length_replicate, List.length_take]
    omega

/-- String concatenation distributes over the underlying character lists. -/
theorem string_append_data (a b : String) : (a ++ b).data = a.data ++ b.data := by
  cases a; cases b; rfl

/-- A concatenation whose right part is non-empty is non-empty. -/
theorem append_ne_empty_right (a b : String) (hb : b ≠ "") : a ++ b ≠ "" := by
  intro h
  apply hb
  have hd := congrArg String.data h
  rw [string_append_data] at hd
  have h2 := (List.append_eq_nil.mp hd).2
  cases b with
  | mk d =>
    cases h2
    rfl

/-- The selector always returns a non-empty explanation string. -/
theorem explanation_ne_empty (w : List ClothingItem) (o we : String) :
    (generate_outfit w o we).explanation ≠ "" := by
  by_cases hlen : w.length < 2
  · simp only [generate_outfit, if_pos hlen]
    decide
  · simp only [generate_outfit, if_neg hlen]
    exact append_ne_empty_right _ _ (by decide)

/-! ### Claim theorems: outfit selector -/

/-- **C1** (corrected). The selector does not fail closed: for every
wardrobe whose top-family bucket or bottom-family bucket is empty, it
still returns a NON-empty outfit together with a non-empty explanation
string. -/
theorem c1_no_fail_closed (w : List ClothingItem) (o we : String)
    (_h : bucketIdx .top w = [] ∨ bucketIdx .bottom w = []) :
    (generate_outfit w o we).outfit ≠ [] ∧
    (generate_outfit w o we).explanation ≠ "" :=
  ⟨outfit_ne_nil w o we, explanation_ne_empty w o we⟩

/-- **C1** counterexample. A wardrobe of two shoes has an empty top
bucket and an empty bottom bucket, yet the returned outfit is `[0, 0]`,
not the empty outfit the claim demands. -/
theorem c1_counterexample :
    bucketIdx .top [(⟨some "shoe"⟩ : ClothingItem), ⟨some "shoe"⟩] = [] ∧
    bucketIdx .bottom [(⟨some "shoe"⟩ : ClothingItem), ⟨some "shoe"⟩] = [] ∧
    (generate_outfit [⟨some "shoe"⟩, ⟨some "shoe"⟩] "casual" "moderate").outfit
      = [0, 0] ∧
    ([0, 0] : List Nat) ≠ [] := by
  decide

/-- **C1** witness: concrete wardrobe of two shoes, top bucket empty. -/
theorem c1_witness :
    (generate_outfit [⟨some "shoe"⟩, ⟨some "shoe"⟩] "work" "cold").outfit ≠ [] ∧
    (generate_outfit [⟨some "shoe"⟩, ⟨some "shoe"⟩] "work" "cold").explanation ≠ "" :=
  c1_no_fail_closed [⟨some "shoe"⟩, ⟨some "shoe"⟩] "work" "cold" (.inl (by decide))

/-- **C2** (corrected). For every NON-empty wardrobe, every `item_index`
returned on the non-exception path satisfies `0 ≤ i < len(wardrobe)`
(indices are `Nat`, so the lower bound is inherent). The empty wardrobe
violates the claim, as does the exception fallback `[0, 1]` whenever the
wardrobe has fewer than 2 items. -/
theorem c2_indices_in_bounds (w : List ClothingItem) (o we : String)
    (hne : w ≠ []) :
    ∀ i ∈ (generate_outfit w o we).outfit, i < w.length :=
  outfit_mem_lt hne

/-- **C2** counterexample. The empty wardrobe gets outfit
`[{item_index: 0}]`, and index 0 is not below the wardrobe length 0. -/
theorem c2_counterexample :
    (generate_outfit [] "casual" "moderate").outfit = [0] ∧
    ¬ (0 < ([] : List ClothingItem).length) := by
  decide

/-- **C2** witness: the single-item wardrobe returns index 0, in bounds. -/
theorem c2_witness : 0 < ([(⟨some "shirt"⟩ : ClothingItem)]).length :=
  c2_indices_in_bounds [⟨some "shirt"⟩] "casual" "moderate" (by decide)
    0 (by decide)

/-- **C3** (confirmed). For every wardrobe with at least one top-family
and at least one bottom-family item, the selector returns a non-empty
outfit, all of whose indices are in bounds, containing at least one
index from the top bucket and at least one from the bottom bucket. -/
theorem c3_required_buckets (w : List ClothingItem) (o we : String)
    (ht : bucketIdx .top w ≠ []) (hb : bucketIdx .bottom w ≠ []) :
    (generate_outfit w o we).outfit ≠ [] ∧
    (∀ i ∈ (generate_outfit w o we).outfit, i < w.length) ∧
    (∃ i ∈ (generate_outfit w o we).outfit, i ∈ bucketIdx .top w) ∧
    (∃ i ∈ (generate_outfit w o we).outfit, i ∈ bucketIdx .bottom w) := by
  have h2 := two_le_length_of_buckets ht hb
  have hne : w ≠ [] := by
    intro hnil
    rw [hnil] at h2
    simp at h2
  have hlen : ¬ w.length < 2 := by omega
  obtain ⟨t0, ts, hts⟩ := List.exists_cons_of_ne_nil ht
  obtain ⟨b0, bs, hbs⟩ := List.exists_cons_of_ne_nil hb
  refine ⟨outfit_ne_nil w o we, outfit_mem_lt hne, ⟨t0, ?_, ?_⟩, ⟨b0, ?_, ?_⟩⟩
  · simp only [generate_outfit, if_neg hlen]
    rw [hts, hbs]
    simp
  · rw [hts]
    exact List.mem_cons_self _ _
  · simp only [generate_outfit, if_neg hlen]
    rw [hts, hbs]
    simp
  · rw [hbs]
    exact List.mem_cons_self _ _

/-- **C3** witness: wardrobe `[shirt, jeans]`. -/
theorem c3_witness :
    (generate_outfit [⟨some "shirt"⟩, ⟨some "jeans"⟩] "casual" "moderate").outfit ≠ [] ∧
    (∀ i ∈ (generate_outfit [⟨some "shirt"⟩, ⟨some "jeans"⟩] "casual" "moderate").outfit,
      i < ([(⟨some "shirt"⟩ : ClothingItem), ⟨some "jeans"⟩]).length) ∧
    (∃ i ∈ (generate_outfit [⟨some "shirt"⟩, ⟨some "jeans"⟩] "casual" "moderate").outfit,
      i ∈ bucketIdx .top [⟨some "shirt"⟩, ⟨some "jeans"⟩]) ∧
    (∃ i ∈ (generate_outfit [⟨some "shirt"⟩, ⟨some "jeans"⟩] "casual" "moderate").outfit,
      i ∈ bucketIdx .bottom [⟨some "shirt"⟩, ⟨some "jeans"⟩]) :=
  c3_required_buckets [⟨some "shirt"⟩, ⟨some "jeans"⟩] "casual" "moderate"
    (by decide) (by decide)

/-- **C4** (corrected). The weather value never gates item selection: the
outfit is identical for every weather value (weather only appears in the
explanation text), so outerwear-family items are selectable in any
weather, not only when `weather == "cold"`. -/
theorem c4_weather_independent (w : List ClothingItem) (o we1 we2 : String) :
    (generate_outfit w o we1).outfit = (generate_outfit w o we2).outfit := by
  by_cases h : w.length < 2 <;> simp [generate_outfit, h]

/-- **C4** counterexample. With weather `"moderate"` (not `"cold"`), the
wardrobe `[jacket, jeans]` yields outfit `[0, 1]`, which includes the
outerwear-family item `jacket` at index 0. -/
theorem c4_counterexample :
    ¬ ("moderate" = "cold") ∧
    matchesAny outerwearKeywords (pyLower "jacket") = true ∧
    (generate_outfit [⟨some "jacket"⟩, ⟨some "jeans"⟩] "casual" "moderate").outfit
      = [0, 1] := by
  decide

/-- **C5** (corrected). Selection among tied items is deterministic, not
randomized: no bucket is ever shuffled, and the selector always picks the
first index of the top bucket in wardrobe-enumeration order as the first
outfit entry, so two runs on the same input always return the same
indices. -/
theorem c5_first_of_bucket (w : List ClothingItem) (o we : String)
    (h2 : 2 ≤ w.length) (ht : bucketIdx .top w ≠ []) :
    (generate_outfit w o we).outfit.head? = (bucketIdx .top w).head? := by
  have hlen : ¬ w.length < 2 := by omega
  obtain ⟨t0, ts, hts⟩ := List.exists_cons_of_ne_nil ht
  simp only [generate_outfit, if_neg hlen]
  rw [hts]
  simp

/-- **C5** counterexample. In the wardrobe `[shirt, shirt, jeans]` the
top bucket holds the tied indices 0 and 1, yet the outfit is always
exactly `[0, 2]`: the tied index 1 is never returned, contradicting
randomized tie-breaking. -/
theorem c5_counterexample :
    bucketIdx .top [(⟨some "shirt"⟩ : ClothingItem), ⟨some "shirt"⟩, ⟨some "jeans"⟩]
      = [0, 1] ∧
    (generate_outfit [⟨some "shirt"⟩, ⟨some "shirt"⟩, ⟨some "jeans"⟩]
      "casual" "moderate").outfit = [0, 2] ∧
    1 ∉ (generate_outfit [⟨some "shirt"⟩, ⟨some "shirt"⟩, ⟨some "jeans"⟩]
      "casual" "moderate").outfit := by
  decide

/-- **C5** witness: wardrobe `[shirt, shirt, jeans]`, top bucket `[0, 1]`. -/
theorem c5_witness :
    (generate_outfit [⟨some "shirt"⟩, ⟨some "shirt"⟩, ⟨some "jeans"⟩]
      "date" "warm").outfit.head?
    = (bucketIdx .top
        [(⟨some "shirt"⟩ : ClothingItem), ⟨some "shirt"⟩, ⟨some "jeans"⟩]).head? :=
  c5_first_of_bucket [⟨some "shirt"⟩, ⟨some "shirt"⟩, ⟨some "jeans"⟩]
    "date" "warm" (by decide) (by decide)

/-- **C10** (confirmed). For every wardrobe with at least 2 items, the
outfit returned on the non-exception path has at least 2 and at most 3
entries. -/
theorem c10_outfit_size (w : List ClothingItem) (o we : String)
    (h2 : 2 ≤ w.length) :
    2 ≤ (generate_outfit w o we).outfit.length ∧
    (generate_outfit w o we).outfit.length ≤ 3 := by
  have hlen : ¬ w.length < 2 := by omega
  simp only [generate_outfit, if_neg hlen, List.length_append,
    List.length_replicate, List.length_take]
  omega

/-- **C10** witness: wardrobe of two shoes yields an outfit of length 2. -/
theorem c10_witness :
    2 ≤ (generate_outfit [⟨some "shoe"⟩, ⟨some "sneaker"⟩] "casual" "rainy").outfit.length ∧
    (generate_outfit [⟨some "shoe"⟩, ⟨some "sneaker"⟩] "casual" "rainy").outfit.length ≤ 3 :=
  c10_outfit_size [⟨some "shoe"⟩, ⟨some "sneaker"⟩] "casual" "rainy" (by decide)

/-! ### Helper lemmas and claim theorems: mannequin compositor -/

/-- The paste fold appends exactly the successfully processed layers, in
input order, to whatever canvas it starts from. -/
theorem foldl_paste_eq (decode : String → Option Img)
    (items : List MannequinItem) (c : Canvas) :
    (items.foldl
      (fun composite item =>
        match processItem decode item with
        | none => composite
        | some p => { composite with layers := composite.layers ++ [p] }) c)
    = { c with layers := c.layers ++ items.filterMap (processItem decode) } := by
  induction items generalizing c with
  | nil => simp
  | cons it rest ih =>
    simp only [List.foldl_cons, List.filterMap_cons]
    cases h : processItem decode it with
    | none =>
      simp only [h]
      exact ih c
    | some p =>
      simp only [h]
      rw [ih]
      simp

/-- Closed form of the compositor: the blank 1024×1536 opaque-white canvas
carrying the successfully processed items as layers, in input order. -/
theorem create_mannequin_composite_eq (decode : String → Option Img)
    (items : List MannequinItem) :
    create_mannequin_composite decode items
      = ⟨1024, 1536, (255, 255, 255, 255), items.filterMap (processItem decode)⟩ := by
  unfold create_mannequin_composite
  rw [foldl_paste_eq]
  rfl

/-- **C6** (confirmed). The compositor applied to the empty item list
returns the blank canvas of the configured fixed dimensions 1024×1536
with opaque background `(255, 255, 255, 255)` and no layers — it is a
total function, not an error, for every decoding collaborator. -/
theorem c6_empty_blank_canvas (decode : String → Option Img) :
    create_mannequin_composite decode []
      = ⟨1024, 1536, (255, 255, 255, 255), []⟩ := rfl

/-- **C7** (confirmed). An item whose image data is missing or fails to
decode is skipped while the rest are composited: the layers are exactly
the successfully processed items in order; one undecodable item plus one
valid item yields only the valid layer; and when every item fails the
output is the blank canvas. -/
theorem c7_skip_on_failure (decode : String → Option Img)
    (items : List MannequinItem) (bad good : MannequinItem) (p : Paste)
    (hbad : processItem decode bad = none)
    (hgood : processItem decode good = some p) :
    ((create_mannequin_composite decode items).layers
      = items.filterMap (processItem decode)) ∧
    ((create_mannequin_composite decode [bad, good]).layers = [p]) ∧
    ((∀ it ∈ items, processItem decode it = none) →
      create_mannequin_composite decode items
        = ⟨1024, 1536, (255, 255, 255, 255), []⟩) := by
  refine ⟨?_, ?_, ?_⟩
  · rw [create_mannequin_composite_eq]
  · rw [create_mannequin_composite_eq]
    simp [hbad, hgood]
  · intro hall
    rw [create_mannequin_composite_eq]
    simp only [List.filterMap_eq_nil_iff.2 hall]

/-- A concrete decoding collaborator for witnesses: decodes the single
payload `"IMG"` to a 100×100 image and fails on everything else. -/
def witnessDecode : String → Option Img :=
  fun s => if s == "IMG" then some ⟨100, 100⟩ else none

/-- **C7** witness: one undecodable item plus one valid 100×100 shirt,
pasted centered on the shirt anchor `(512, 460)` at offset `(462, 410)`. -/
theorem c7_witness :
    (create_mannequin_composite witnessDecode
      [⟨some "junk", some "shirt"⟩, ⟨some "IMG", some "shirt"⟩]).layers
    = [⟨⟨100, 100⟩, (462, 410)⟩] :=
  (c7_skip_on_failure witnessDecode [⟨some "junk", some "shirt"⟩]
    ⟨some "junk", some "shirt"⟩ ⟨some "IMG", some "shirt"⟩
    ⟨⟨100, 100⟩, (462, 410)⟩ (by decide) (by decide)).2.1

/-- **C8** (corrected). The Selector and the Compositor do NOT share one
keyword-normalization: the Selector matches keyword substrings of the
lowercased category while the Compositor looks up the exact
lowercased/stripped string in its tables. They agree in family on every
exact anchor-table key of the top, bottom and shoe groups, but a
substring-only match such as `"sandal"` (Selector family: shoes) falls
back to the Compositor defaults, and `"dress"` (Selector family: other)
has a dedicated Compositor anchor. -/
theorem c8_normalizations_differ :
    ((["shirt", "top", "t-shirt", "blouse", "sweater",
       "jacket", "coat", "outerwear"] : List String).all
      (fun k => bucketOf ⟨some k⟩ == .top)) = true ∧
    ((["pants", "bottom", "jeans", "trousers", "skirt"] : List String).all
      (fun k => bucketOf ⟨some k⟩ == .bottom)) = true ∧
    ((["shoes", "shoe", "sneakers", "boots"] : List String).all
      (fun k => bucketOf ⟨some k⟩ == .shoes)) = true ∧
    bucketOf ⟨some "sandal"⟩ = .shoes ∧
    compositorAnchor "sandal" = (512, 768) ∧
    compositorSize "sandal" = (400, 400) ∧
    bucketOf ⟨some "dress"⟩ = .other ∧
    compositorAnchor "dress" = (512, 691) := by
  decide

/-- **C8** counterexample. `"sandal"` and `"shoes"` are assigned the same
Selector family (shoes), yet the Compositor gives them different anchors
(default center `(512, 768)` versus the shoe anchor `(512, 1259)`) and
different size limits — so the Compositor lookup does not factor through
the Selector normalization. -/
theorem c8_counterexample :
    bucketOf ⟨some "sandal"⟩ = bucketOf ⟨some "shoes"⟩ ∧
    compositorAnchor "sandal" ≠ compositorAnchor "shoes" ∧
    compositorSize "sandal" ≠ compositorSize "shoes" := by
  decide

/-! ### Claim theorems: credential-missing error handling -/

/-- **C9** (corrected). With the relevant credential missing,
`analyze-clothing` responds HTTP 200 with the static default attribute
record and `generate-mannequin` (on a non-empty item list) responds HTTP
200 with the basic composite; but `remove-background` responds HTTP 400
— not 200 — with a `{"success": false, "error": "No API key"}` body.
None of these credential-missing paths is a 5xx. -/
theorem c9_credential_missing (u : BgUpstream) (a : Option String)
    (items : List MannequinItem) (r : Bool) (hne : items ≠ []) :
    analyze_clothing false a = ⟨200, none, "default-content"⟩ ∧
    generate_mannequin false r items = ⟨200, some true, "basic-composite"⟩ ∧
    remove_background false u = ⟨400, some false, "No API key"⟩ ∧
    (remove_background false u).status ≠ 200 ∧
    (analyze_clothing false a).status < 500 ∧
    (generate_mannequin false r items).status < 500 ∧
    (remove_background false u).status < 500 := by
  have hitems : items.isEmpty = false := by
    cases items with
    | nil => exact absurd rfl hne
    | cons x xs => rfl
  have hmann : generate_mannequin false r items
      = ⟨200, some true, "basic-composite"⟩ := by
    simp [generate_mannequin, hitems]
  refine ⟨rfl, hmann, rfl, show (400 : Nat) ≠ 200 by decide,
    show (200 : Nat) < 500 by decide, ?_, show (400 : Nat) < 500 by decide⟩
  rw [hmann]
  decide

/-- **C9** counterexample. With no `REMOVEBG_API_KEY`, `remove-background`
returns status 400, not the HTTP 200 the claim demands. -/
theorem c9_counterexample :
    (remove_background false (BgUpstream.ok "payload")).status = 400 ∧
    (400 : Nat) ≠ 200 := by
  decide

/-- **C9** witness: concrete upstream outcome and a one-item list. -/
theorem c9_witness :
    analyze_clothing false none = ⟨200, none, "default-content"⟩ ∧
    generate_mannequin false true [⟨some "IMG", some "shirt"⟩]
      = ⟨200, some true, "basic-composite"⟩ ∧
    remove_background false (BgUpstream.exn "timeout")
      = ⟨400, some false, "No API key"⟩ ∧
    (remove_background false (BgUpstream.exn "timeout")).status ≠ 200 ∧
    (analyze_clothing false none).status < 500 ∧
    (generate_mannequin false true [⟨some "IMG", some "shirt"⟩]).status < 500 ∧
    (remove_background false (BgUpstream.exn "timeout")).status < 500 :=
  c9_credential_missing (BgUpstream.exn "timeout") none
    [⟨some "IMG", some "shirt"⟩] true (by decide)

end Wardrobe
